import Mathlib

/-!
# dave: the request pipeline of `cmd/dave/main.go`

A shallow embedding of `wrapRecovery`, of the per-request `Logger` callback handed to the
WebDAV engine, and of the TLS policy computed in `main`, followed by the properties proved
about them.

Conventions of the embedding

* A Go handler mutates its `http.ResponseWriter`, may touch process state (file system,
  locks), may write to the process-wide logrus logger and may panic.  It is embedded as a
  total function returning an `Outcome`: the writer state it left, the process state it
  left, the log entries it emitted and the value it panicked with, if any.  Handlers that
  never return, and faults Go cannot recover (`os.Exit`, fatal runtime errors), are outside
  the embedding.
* `http.Header` is a map from keys to value lists; `Header.Set` replaces the list stored
  under a key.  The keys written by `wrapRecovery` are literals already in canonical MIME
  form, so key canonicalisation is the identity on them and is not modelled.
-/

namespace Dave

/-! ## Go values -/

/-- A Go value of interface type `error`: either built by `errors.New`, or any other
implementation (a runtime error, a wrapped error, ...) identified by its type and text. -/
inductive GoError where
  | errorString (s : String)
  | custom (typeName : String) (text : String)
  deriving DecidableEq, Repr

/-- The `Error()` method. -/
def GoError.Error : GoError → String
  | .errorString s => s
  | .custom _ text => text

/-- Go `errors.New`. -/
def errors.New (text : String) : GoError := GoError.errorString text

/-- The dynamic value carried by a panic, as seen by the type switch of `wrapRecovery`:
a `string`, a value implementing `error`, or a value of any other dynamic type
(an `int`, a struct, ...). -/
inductive PanicValue where
  | str (s : String)
  | err (e : GoError)
  | other (typeName : String) (repr : String)
  deriving DecidableEq, Repr

/-! ## logrus -/

/-- Severity of a logrus entry. -/
inductive Level where
  | Error
  | Info
  deriving DecidableEq, Repr

/-- One logrus entry: its level, its message and the error attached with `WithError`. -/
structure LogEntry where
  level : Level
  message : String
  error : Option GoError
  deriving DecidableEq, Repr

/-- The call `log.Error(err)`: an error-level entry whose message is the text of `err`. -/
def log.Error (err : GoError) : LogEntry :=
  { level := Level.Error, message := err.Error, error := none }

/-- The call `log.WithError(err).Error(msg)`. -/
def log.WithError (err : GoError) (msg : String) : LogEntry :=
  { level := Level.Error, message := msg, error := some err }

/-! ## net/http -/

/-- The header map `http.Header`. -/
structure Header where
  values : String → Option (List String)

/-- The method `Header.Set`: the key now maps to the single value. -/
def Header.Set (h : Header) (key value : String) : Header :=
  { values := fun k => if k = key then some [value] else h.values k }

/-- The method `Header.Del`. -/
def Header.Del (h : Header) (key : String) : Header :=
  { values := fun k => if k = key then none else h.values k }

/-- The empty header map. -/
def Header.empty : Header := { values := fun _ => none }

/-- State of an `http.ResponseWriter`: the header map, the status passed to `WriteHeader`
(`none` while it has not been called) and the body bytes written so far. -/
structure ResponseWriter where
  header : Header
  status : Option Nat
  body : List Nat

/-- A writer on which nothing has been set or written. -/
def ResponseWriter.fresh : ResponseWriter :=
  { header := Header.empty, status := none, body := [] }

/-- The part of `http.Request` the pipeline can distinguish requests by. -/
structure Request where
  Method : String
  URL : String
  Authorization : Option String
  deriving DecidableEq, Repr

/-- What one run of a handler leaves behind: the writer state, the process state, the log
entries emitted, and the panic value when the run ended by panicking. -/
structure Outcome (σ : Type) where
  w : ResponseWriter
  ext : σ
  logs : List LogEntry
  panic : Option PanicValue

/-- An `http.Handler`; `σ` is the process state reachable from handlers. -/
def Handler (σ : Type) : Type := ResponseWriter → Request → σ → Outcome σ

/-- The method `ServeHTTP` of a handler. -/
def Handler.ServeHTTP {σ : Type} (h : Handler σ) (w : ResponseWriter) (r : Request) (s : σ) :
    Outcome σ := h w r s

/-! ## Configuration -/

/-- Modelled from the spec: the type `app.Cors` is declared in package `app`, outside the
sources at hand; the CORS origin and the credentials flag of the configuration surface. -/
structure Cors where
  Origin : String
  Credentials : Bool
  deriving DecidableEq, Repr

/-- Modelled from the spec: the type `app.Logging`; only the per-request error logging
toggle is read by `main.go`. -/
structure Logging where
  Error : Bool
  deriving DecidableEq, Repr

/-- Modelled from the spec: the type `app.TLS`, the certificate and key file paths. -/
structure TLS where
  CertFile : String
  KeyFile : String
  deriving DecidableEq, Repr

/-- Modelled from the spec: the type `app.Config`, restricted to the fields `main.go`
reads. `TLS` is a pointer in the source, hence an `Option`. -/
structure Config where
  Address : String
  Port : String
  TLS : Option TLS
  Log : Logging
  Cors : Cors
  deriving DecidableEq, Repr

/-! ## `wrapRecovery` -/

/-- Lines 105-112: the CORS headers written on the response before the inner handler runs. -/
def setCorsHeaders (config : Config) (h : Header) : Header :=
  if config.Cors.Origin.utf8ByteSize > 0 then
    let h1 := h.Set "Access-Control-Allow-Origin" config.Cors.Origin
    let h2 := h1.Set "Access-Control-Allow-Headers" "*"
    let h3 := h2.Set "Access-Control-Allow-Methods" "*"
    if config.Cors.Credentials then
      h3.Set "Access-Control-Allow-Credentials" "true"
    else h3
  else h

/-- The writer as the inner handler receives it: same writer, CORS headers set. -/
def withCors (config : Config) (w : ResponseWriter) : ResponseWriter :=
  { w with header := setCorsHeaders config w.header }

/-- Lines 94-103: the deferred function. `recover()` returns nil when the body did not panic
(`none`); otherwise the type switch logs a `string` or an `error` and has no other case. -/
def recovered : Option PanicValue → List LogEntry
  | none => []
  | some (PanicValue.str t) =>
      [log.WithError (errors.New t) "An error occurred handling a webdav request"]
  | some (PanicValue.err t) =>
      [log.WithError t "An error occurred handling a webdav request"]
  | some (PanicValue.other _ _) => []

/-- The function `wrapRecovery`: set the CORS headers, run the inner handler, and on the way
out run the deferred function, after which the call returns normally. -/
def wrapRecovery {σ : Type} (handler : Handler σ) (config : Config) : Handler σ :=
  fun w r s =>
    let res := handler.ServeHTTP (withCors config w) r s
    { w := res.w, ext := res.ext, logs := res.logs ++ recovered res.panic, panic := none }

/-! ## The `Logger` callback of the WebDAV handler -/

/-- Lines 41-45: the `Logger` field of `webdav.Handler`; `err` is `none` for a nil error.
The result is the list of log entries the call emits. -/
def Logger (config : Config) (_request : Request) (err : Option GoError) : List LogEntry :=
  match config.Log.Error, err with
  | true, some e => [log.Error e]
  | _, _ => []

/-! ## TLS policy -/

/-- The fields of `tls.CipherSuite` read by `main`. `ID` is a `uint16`. -/
structure CipherSuite where
  ID : Nat
  Name : String
  Insecure : Bool
  deriving DecidableEq, Repr

/-- The fields of `tls.Config` set by `main`. -/
structure TLSConfig where
  CipherSuites : List Nat
  MinVersion : Nat
  deriving DecidableEq, Repr

/-- The constant `tls.VersionTLS12`. -/
def VersionTLS12 : Nat := 0x0303

/-- Lines 55-60: the loop over `tls.CipherSuites()` appending the ID of every suite that is
not flagged insecure. -/
def secureCiphers (suites : List CipherSuite) : List Nat :=
  suites.foldl (fun acc cipherSuite =>
    if !cipherSuite.Insecure then acc ++ [cipherSuite.ID] else acc) []

/-- Lines 53-65: `tlsConfig` stays nil unless `config.TLS` is set. -/
def tlsConfig (config : Config) (suites : List CipherSuite) : Option TLSConfig :=
  match config.TLS with
  | some _ => some { CipherSuites := secureCiphers suites, MinVersion := VersionTLS12 }
  | none => none

/-- The fields of `http.Server` set by `main`. -/
structure Server where
  Addr : String
  TLSConfig : Option TLSConfig
  deriving DecidableEq, Repr

/-- Lines 68-72: the server value built by `main`. -/
def server (config : Config) (suites : List CipherSuite) : Server :=
  { Addr := config.Address ++ ":" ++ config.Port, TLSConfig := tlsConfig config suites }

/-! ## Instruments

Observers of the calls made to a handler and of the response it leaves. -/

/-- Instrument a handler: the process state additionally records, for every invocation, the
writer state and the request the handler was invoked with. -/
def recordCalls {σ : Type} (h : Handler σ) : Handler (σ × List (ResponseWriter × Request)) :=
  fun w r s =>
    let res := h.ServeHTTP w r s.1
    { w := res.w, ext := (res.ext, s.2 ++ [(w, r)]), logs := res.logs, panic := res.panic }

/-- Whether the response state tells the client the request failed: an explicit status of
400 or above. With no status written `net/http` answers 200 OK. -/
def signalsFailure (w : ResponseWriter) : Bool :=
  match w.status with
  | some c => decide (400 ≤ c)
  | none => false

/-! ## Sample configurations, requests and handlers -/

/-- CORS configured with origin `https://x` and credentials, error logging disabled. -/
def corsX : Config :=
  { Address := "127.0.0.1", Port := "8000", TLS := none, Log := { Error := false },
    Cors := { Origin := "https://x", Credentials := true } }

/-- No origin configured, credentials flag set, TLS configured. -/
def noOrigin : Config :=
  { Address := "0.0.0.0", Port := "443",
    TLS := some { CertFile := "cert.pem", KeyFile := "key.pem" },
    Log := { Error := true }, Cors := { Origin := "", Credentials := true } }

/-- A request that makes `gate` panic. -/
def reqBoom : Request := { Method := "GET", URL := "/boom", Authorization := none }

/-- An authenticated request. -/
def reqOk : Request := { Method := "GET", URL := "/file", Authorization := some "Basic YTpi" }

/-- A request without credentials. -/
def reqAnon : Request := { Method := "GET", URL := "/file", Authorization := none }

/-- A handler shaped like the authentication gate in front of an engine: it panics with a
string on `/boom`, answers 401 with a challenge when no credentials are sent, and 200
otherwise. It never touches the CORS headers. -/
def gate : Handler Unit := fun w r s =>
  if r.URL = "/boom" then
    { w := w, ext := s, logs := [], panic := some (PanicValue.str "boom") }
  else match r.Authorization with
    | none =>
      { w := { w with header := w.header.Set "Www-Authenticate" "Basic realm=dave",
                      status := some 401 },
        ext := s, logs := [], panic := none }
    | some _ =>
      { w := { w with status := some 200, body := [104, 105] },
        ext := s, logs := [], panic := none }

/-- A request whose answer depends on the process state of `tally`. -/
def reqCount : Request :=
  { Method := "GET", URL := "/count", Authorization := some "Basic YTpi" }

/-- A handler over a counter as process state: on `/boom` it increments the counter and
then panics with a string, on `/count` it answers 200 with the counter as body, and on
anything else 200 with a fixed body. -/
def tally : Handler Nat := fun w r s =>
  if r.URL = "/boom" then
    { w := w, ext := s + 1, logs := [], panic := some (PanicValue.str "boom") }
  else if r.URL = "/count" then
    { w := { w with status := some 200, body := [s] }, ext := s, logs := [], panic := none }
  else
    { w := { w with status := some 200, body := [104, 105] }, ext := s, logs := [],
      panic := none }

/-- A handler that removes the allow-origin header and answers 200. -/
def stripCors : Handler Unit := fun w _ s =>
  { w := { w with header := w.header.Del "Access-Control-Allow-Origin", status := some 200 },
    ext := s, logs := [], panic := none }

/-- A handler executing `panic(42)`: the panic value is an `int`. -/
def panicInt : Handler Unit := fun w _ s =>
  { w := w, ext := s, logs := [], panic := some (PanicValue.other "int" "42") }

/-- A handler that writes status 200 and two body bytes, then panics with an error value. -/
def okThenPanic : Handler Unit := fun w _ s =>
  { w := { w with status := some 200, body := [111, 107] }, ext := s, logs := [],
    panic := some (PanicValue.err (GoError.custom "runtime.Error" "nil pointer dereference")) }

/-- Two suites, the first flagged insecure. -/
def sampleSuites : List CipherSuite :=
  [ { ID := 0x0005, Name := "TLS_RSA_WITH_RC4_128_SHA", Insecure := true },
    { ID := 0x1301, Name := "TLS_AES_128_GCM_SHA256", Insecure := false } ]

/-! ## Auxiliary facts -/

theorem utf8ByteSize_pos_iff (s : String) : 0 < s.utf8ByteSize ↔ s ≠ "" := by
  cases s with
  | mk cs =>
    cases cs with
    | nil => simp [String.utf8ByteSize, String.utf8ByteSize.go]
    | cons c cs =>
      have hc := Char.utf8Size_pos c
      have hne : String.mk (c :: cs) ≠ "" := by
        intro h
        have := congrArg String.data h
        simp at this
      simp only [String.utf8ByteSize, String.utf8ByteSize.go, ne_eq, hne, not_false_eq_true,
        iff_true]
      omega

/-- The header map after lines 105-112, key by key. -/
theorem setCorsHeaders_values (config : Config) (h : Header) (k : String) :
    (setCorsHeaders config h).values k =
      if config.Cors.Origin = "" then h.values k
      else if k = "Access-Control-Allow-Credentials" ∧ config.Cors.Credentials = true then
        some ["true"]
      else if k = "Access-Control-Allow-Methods" then some ["*"]
      else if k = "Access-Control-Allow-Headers" then some ["*"]
      else if k = "Access-Control-Allow-Origin" then some [config.Cors.Origin]
      else h.values k := by
  unfold setCorsHeaders
  by_cases hO : config.Cors.Origin = ""
  · have h0 : ¬ (config.Cors.Origin.utf8ByteSize > 0) := by
      intro hp
      exact (utf8ByteSize_pos_iff _).1 hp hO
    rw [if_neg h0, if_pos hO]
  · have h0 : config.Cors.Origin.utf8ByteSize > 0 := (utf8ByteSize_pos_iff _).2 hO
    by_cases hC : config.Cors.Credentials = true
    · simp [hO, h0, hC, Header.Set]
    · simp [hO, h0, hC, Header.Set]

theorem setCorsHeaders_empty (config : Config) (h : Header) (hO : config.Cors.Origin = "") :
    setCorsHeaders config h = h := by
  unfold setCorsHeaders
  have h0 : ¬ (config.Cors.Origin.utf8ByteSize > 0) := by
    intro hp
    exact (utf8ByteSize_pos_iff _).1 hp hO
  simp [h0]

theorem secureCiphers_foldl (suites : List CipherSuite) :
    ∀ acc : List Nat,
      suites.foldl (fun acc cipherSuite =>
        if !cipherSuite.Insecure then acc ++ [cipherSuite.ID] else acc) acc
      = acc ++ (suites.filter (fun c => !c.Insecure)).map (fun c => c.ID) := by
  induction suites with
  | nil => intro acc; simp
  | cons c cs ih =>
    intro acc
    rw [List.foldl_cons, ih]
    cases hc : c.Insecure <;> simp [List.filter_cons, hc]

/-! ## CORS headers (lines 105-114) -/

/-- C3: with a non-empty configured origin, the writer the inner handler is invoked with
already holds `Access-Control-Allow-Origin` = the configured origin and
`Access-Control-Allow-Headers` = `Access-Control-Allow-Methods` = `*`, whatever those keys
held before; status and body are untouched; the inner handler is invoked exactly once, with
the same request and that writer; and what it leaves is what `wrapRecovery` leaves. -/
theorem wrapRecovery_sets_cors_then_calls_inner {σ : Type} (handler : Handler σ)
    (config : Config) (w : ResponseWriter) (r : Request) (s : σ)
    (calls : List (ResponseWriter × Request)) (hO : config.Cors.Origin ≠ "") :
    (withCors config w).header.values "Access-Control-Allow-Origin"
        = some [config.Cors.Origin] ∧
    (withCors config w).header.values "Access-Control-Allow-Headers" = some ["*"] ∧
    (withCors config w).header.values "Access-Control-Allow-Methods" = some ["*"] ∧
    (withCors config w).status = w.status ∧
    (withCors config w).body = w.body ∧
    ((wrapRecovery (recordCalls handler) config).ServeHTTP w r (s, calls)).ext.2
        = calls ++ [(withCors config w, r)] ∧
    ((wrapRecovery handler config).ServeHTTP w r s).w
        = (handler.ServeHTTP (withCors config w) r s).w ∧
    ((wrapRecovery handler config).ServeHTTP w r s).ext
        = (handler.ServeHTTP (withCors config w) r s).ext := by
  refine ⟨?_, ?_, ?_, rfl, rfl, rfl, rfl, rfl⟩
  · simp [withCors, setCorsHeaders_values, hO]
  · simp [withCors, setCorsHeaders_values, hO]
  · simp [withCors, setCorsHeaders_values, hO]

theorem wrapRecovery_sets_cors_then_calls_inner_witness :
    corsX.Cors.Origin ≠ "" ∧
    (withCors corsX ResponseWriter.fresh).header.values "Access-Control-Allow-Origin"
        = some ["https://x"] ∧
    ((wrapRecovery (recordCalls gate) corsX).ServeHTTP ResponseWriter.fresh reqOk ((), [])).ext.2
        = [] ++ [(withCors corsX ResponseWriter.fresh, reqOk)] :=
  ⟨by decide,
   (wrapRecovery_sets_cors_then_calls_inner gate corsX ResponseWriter.fresh reqOk () []
      (by decide)).1,
   (wrapRecovery_sets_cors_then_calls_inner gate corsX ResponseWriter.fresh reqOk () []
      (by decide)).2.2.2.2.2.1⟩

/-- C9: the inner handler is invoked exactly once, with the request and with the writer
`withCors config w`, and that writer carries no CORS header beyond what is configured: with
an empty configured origin it is the incoming writer unchanged, even when credentials are
requested; in every configuration its `Access-Control-Allow-Credentials` is `true` exactly
when the origin is non-empty and credentials are requested, and is otherwise what came in;
keys other than the four CORS keys, the status and the body are what came in. -/
theorem wrapRecovery_no_unconfigured_cors {σ : Type} (handler : Handler σ)
    (config : Config) (w : ResponseWriter) (r : Request) (s : σ)
    (calls : List (ResponseWriter × Request)) :
    ((wrapRecovery (recordCalls handler) config).ServeHTTP w r (s, calls)).ext.2
        = calls ++ [(withCors config w, r)] ∧
    (config.Cors.Origin = "" →
      withCors config w = w ∧
      ((wrapRecovery (recordCalls handler) config).ServeHTTP w r (s, calls)).ext.2
        = calls ++ [(w, r)]) ∧
    ((withCors config w).header.values "Access-Control-Allow-Credentials" =
      if config.Cors.Origin ≠ "" ∧ config.Cors.Credentials = true then some ["true"]
      else w.header.values "Access-Control-Allow-Credentials") ∧
    (∀ k : String, k ≠ "Access-Control-Allow-Origin" → k ≠ "Access-Control-Allow-Headers" →
      k ≠ "Access-Control-Allow-Methods" → k ≠ "Access-Control-Allow-Credentials" →
      (withCors config w).header.values k = w.header.values k) ∧
    (withCors config w).status = w.status ∧
    (withCors config w).body = w.body := by
  refine ⟨rfl, ?_, ?_, ?_, rfl, rfl⟩
  · intro hO
    have hw : withCors config w = w := by
      simp [withCors, setCorsHeaders_empty config w.header hO]
    refine ⟨hw, ?_⟩
    show calls ++ [(withCors config w, r)] = calls ++ [(w, r)]
    rw [hw]
  · by_cases hO : config.Cors.Origin = ""
    · simp [withCors, setCorsHeaders_values, hO]
    · by_cases hC : config.Cors.Credentials = true
      · simp [withCors, setCorsHeaders_values, hO, hC]
      · simp [withCors, setCorsHeaders_values, hO, hC]
  · intro k h1 h2 h3 h4
    simp [withCors, setCorsHeaders_values, h1, h2, h3, h4]

theorem wrapRecovery_no_unconfigured_cors_witness :
    noOrigin.Cors.Credentials = true ∧
    withCors noOrigin ResponseWriter.fresh = ResponseWriter.fresh ∧
    ((wrapRecovery (recordCalls gate) noOrigin).ServeHTTP ResponseWriter.fresh reqOk
        ((), [])).ext.2 = [] ++ [(ResponseWriter.fresh, reqOk)] :=
  ⟨rfl,
   (wrapRecovery_no_unconfigured_cors gate noOrigin ResponseWriter.fresh reqOk () []).2.1 rfl⟩

/-- C4, as stated, fails: with origin `https://x` and credentials configured, an inner
handler that deletes the allow-origin header yields a response without it. -/
theorem cors_headers_not_on_every_response :
    ¬ (∀ (handler : Handler Unit) (w : ResponseWriter) (r : Request),
        ((wrapRecovery handler corsX).ServeHTTP w r ()).w.header.values
            "Access-Control-Allow-Origin" = some ["https://x"] ∧
        ((wrapRecovery handler corsX).ServeHTTP w r ()).w.header.values
            "Access-Control-Allow-Credentials" = some ["true"]) := by
  intro h
  have h1 := (h stripCors ResponseWriter.fresh reqOk).1
  simp [wrapRecovery, stripCors, Handler.ServeHTTP, Header.Del] at h1

/-- C4, amended: with a non-empty origin `o` and credentials configured, the response left by
`wrapRecovery` carries `Access-Control-Allow-Origin: o` and
`Access-Control-Allow-Credentials: true` for every inner handler that leaves these two keys
as it received them, whether that handler returns or panics. -/
theorem wrapRecovery_cors_on_response {σ : Type} (handler : Handler σ) (config : Config)
    (w : ResponseWriter) (r : Request) (s : σ) (o : String)
    (hO : config.Cors.Origin = o) (hne : o ≠ "") (hC : config.Cors.Credentials = true)
    (hframe : ∀ k : String,
      k = "Access-Control-Allow-Origin" ∨ k = "Access-Control-Allow-Credentials" →
      (handler.ServeHTTP (withCors config w) r s).w.header.values k
        = (withCors config w).header.values k) :
    ((wrapRecovery handler config).ServeHTTP w r s).w.header.values
        "Access-Control-Allow-Origin" = some [o] ∧
    ((wrapRecovery handler config).ServeHTTP w r s).w.header.values
        "Access-Control-Allow-Credentials" = some ["true"] := by
  subst hO
  constructor
  · show (handler.ServeHTTP (withCors config w) r s).w.header.values _ = _
    rw [hframe _ (Or.inl rfl)]
    simp [withCors, setCorsHeaders_values, hne]
  · show (handler.ServeHTTP (withCors config w) r s).w.header.values _ = _
    rw [hframe _ (Or.inr rfl)]
    simp [withCors, setCorsHeaders_values, hne, hC]

theorem wrapRecovery_cors_on_response_witness :
    (gate.ServeHTTP (withCors corsX ResponseWriter.fresh) reqBoom ()).panic
        = some (PanicValue.str "boom") ∧
    ((wrapRecovery gate corsX).ServeHTTP ResponseWriter.fresh reqBoom ()).w.header.values
        "Access-Control-Allow-Origin" = some ["https://x"] ∧
    ((wrapRecovery gate corsX).ServeHTTP ResponseWriter.fresh reqBoom ()).w.header.values
        "Access-Control-Allow-Credentials" = some ["true"] :=
  ⟨rfl, wrapRecovery_cors_on_response gate corsX ResponseWriter.fresh reqBoom () "https://x"
    rfl (by decide) rfl (by intro k _; rfl)⟩

/-! ## Panic containment (lines 94-103) -/

/-- C1, as stated, fails: `tally` counts in the process state and panics on `/boom`; the
panic is contained, yet `/count` served after `/boom` is answered with body 1 while
`/count` served alone is answered with body 0: what the inner handler did before panicking
is not undone. -/
theorem served_after_panic_differs :
    (tally.ServeHTTP (withCors corsX ResponseWriter.fresh) reqBoom 0).panic
        = some (PanicValue.str "boom") ∧
    ((wrapRecovery tally corsX).ServeHTTP ResponseWriter.fresh reqCount
        ((wrapRecovery tally corsX).ServeHTTP ResponseWriter.fresh reqBoom 0).ext).w.body
        = [1] ∧
    ((wrapRecovery tally corsX).ServeHTTP ResponseWriter.fresh reqCount 0).w.body = [0] ∧
    ¬ (∀ (handler : Handler Nat) (a b : Request) (s : Nat),
        (handler.ServeHTTP (withCors corsX ResponseWriter.fresh) a s).panic ≠ none →
        ((wrapRecovery handler corsX).ServeHTTP ResponseWriter.fresh b
            ((wrapRecovery handler corsX).ServeHTTP ResponseWriter.fresh a s).ext).w.body
          = ((wrapRecovery handler corsX).ServeHTTP ResponseWriter.fresh b s).w.body) := by
  refine ⟨rfl, rfl, rfl, ?_⟩
  intro h
  have h1 := h tally reqBoom reqCount 0 (by decide)
  revert h1
  decide

/-- C1, amended: for every configuration, request, writer state and inner handler, the
handler built by `wrapRecovery` returns normally, whatever the inner handler panicked with:
no panic leaves it. When it is invoked for `a` and then for `b`, the inner handler is run for
both, in that order, each time with the CORS-augmented writer; the process state after `a` is
the one the inner handler left; the response to `b` is the one the inner handler gives `b`
from that state, and it is the response `b` gets when served alone whenever the inner
handler answers `b` the same from that state as from the initial one. -/
theorem wrapRecovery_contains_panic {σ : Type} (handler : Handler σ) (config : Config)
    (wa wb : ResponseWriter) (a b : Request) (s : σ)
    (calls : List (ResponseWriter × Request)) :
    (∀ (w : ResponseWriter) (r : Request) (s0 : σ),
      ((wrapRecovery handler config).ServeHTTP w r s0).panic = none) ∧
    ((wrapRecovery (recordCalls handler) config).ServeHTTP wb b
        ((wrapRecovery (recordCalls handler) config).ServeHTTP wa a (s, calls)).ext).ext.2
      = calls ++ [(withCors config wa, a), (withCors config wb, b)] ∧
    ((wrapRecovery handler config).ServeHTTP wa a s).ext
      = (handler.ServeHTTP (withCors config wa) a s).ext ∧
    ((wrapRecovery handler config).ServeHTTP wb b
        ((wrapRecovery handler config).ServeHTTP wa a s).ext).w
      = (handler.ServeHTTP (withCors config wb) b
          (handler.ServeHTTP (withCors config wa) a s).ext).w ∧
    ((∀ w : ResponseWriter,
        (handler.ServeHTTP w b (handler.ServeHTTP (withCors config wa) a s).ext).w
          = (handler.ServeHTTP w b s).w) →
      ((wrapRecovery handler config).ServeHTTP wb b
          ((wrapRecovery handler config).ServeHTTP wa a s).ext).w
        = ((wrapRecovery handler config).ServeHTTP wb b s).w ∧
      ((wrapRecovery handler config).ServeHTTP wb b
          ((wrapRecovery handler config).ServeHTTP wa a s).ext).panic
        = ((wrapRecovery handler config).ServeHTTP wb b s).panic) := by
  refine ⟨fun _ _ _ => rfl, ?_, rfl, rfl, ?_⟩
  · show (calls ++ [(withCors config wa, a)]) ++ [(withCors config wb, b)] = _
    rw [List.append_assoc]
    rfl
  · intro hind
    refine ⟨?_, rfl⟩
    show (handler.ServeHTTP (withCors config wb) b
        (handler.ServeHTTP (withCors config wa) a s).ext).w
      = (handler.ServeHTTP (withCors config wb) b s).w
    rw [hind]

theorem wrapRecovery_contains_panic_witness :
    (tally.ServeHTTP (withCors corsX ResponseWriter.fresh) reqBoom 0).panic
        = some (PanicValue.str "boom") ∧
    ((wrapRecovery tally corsX).ServeHTTP ResponseWriter.fresh reqBoom 0).panic = none ∧
    ((wrapRecovery tally corsX).ServeHTTP ResponseWriter.fresh reqBoom 0).ext = 1 ∧
    ((wrapRecovery tally corsX).ServeHTTP ResponseWriter.fresh reqOk
        ((wrapRecovery tally corsX).ServeHTTP ResponseWriter.fresh reqBoom 0).ext).w
      = ((wrapRecovery tally corsX).ServeHTTP ResponseWriter.fresh reqOk 0).w :=
  ⟨rfl,
   (wrapRecovery_contains_panic tally corsX ResponseWriter.fresh ResponseWriter.fresh
      reqBoom reqOk 0 []).1 ResponseWriter.fresh reqBoom 0,
   rfl,
   ((wrapRecovery_contains_panic tally corsX ResponseWriter.fresh ResponseWriter.fresh
      reqBoom reqOk 0 []).2.2.2.2 (fun _ => rfl)).1⟩

/-- C2, at the failing input: an inner handler executing `panic(42)` is recovered, the call
returns normally, and no log entry is emitted. -/
theorem wrapRecovery_swallows_other_panic :
    (panicInt.ServeHTTP (withCors corsX ResponseWriter.fresh) reqOk ()).panic
        = some (PanicValue.other "int" "42") ∧
    ((wrapRecovery panicInt corsX).ServeHTTP ResponseWriter.fresh reqOk ()).panic = none ∧
    ((wrapRecovery panicInt corsX).ServeHTTP ResponseWriter.fresh reqOk ()).logs = [] :=
  ⟨rfl, rfl, rfl⟩

/-- C6: when the inner handler panics, the writer state after `wrapRecovery` returns is
exactly the state the inner handler left at the panic, that handler having started from the
incoming writer with the CORS headers set: the recovery path writes no status, header or
body. The process state is likewise the one left at the panic. -/
theorem wrapRecovery_recovery_writes_nothing {σ : Type} (handler : Handler σ)
    (config : Config) (w : ResponseWriter) (r : Request) (s : σ) (v : PanicValue)
    (hp : (handler.ServeHTTP (withCors config w) r s).panic = some v) :
    ((wrapRecovery handler config).ServeHTTP w r s).w
        = (handler.ServeHTTP (withCors config w) r s).w ∧
    ((wrapRecovery handler config).ServeHTTP w r s).ext
        = (handler.ServeHTTP (withCors config w) r s).ext ∧
    (withCors config w).header = setCorsHeaders config w.header ∧
    (withCors config w).status = w.status ∧
    (withCors config w).body = w.body := by
  have _ := hp
  exact ⟨rfl, rfl, rfl, rfl, rfl⟩

theorem wrapRecovery_recovery_writes_nothing_witness :
    ((wrapRecovery okThenPanic corsX).ServeHTTP ResponseWriter.fresh reqOk ()).w
        = (okThenPanic.ServeHTTP (withCors corsX ResponseWriter.fresh) reqOk ()).w ∧
    ((wrapRecovery okThenPanic corsX).ServeHTTP ResponseWriter.fresh reqOk ()).w.status
        = some 200 ∧
    ((wrapRecovery okThenPanic corsX).ServeHTTP ResponseWriter.fresh reqOk ()).w.body
        = [111, 107] :=
  ⟨(wrapRecovery_recovery_writes_nothing okThenPanic corsX ResponseWriter.fresh reqOk ()
      (PanicValue.err (GoError.custom "runtime.Error" "nil pointer dereference")) rfl).1,
   rfl, rfl⟩

/-- C7, as stated, fails: a handler that panics before writing anything leaves a response
with no status at all, and one that wrote 200 before panicking leaves status 200; neither
response signals a failure, so not every panicking request is answered with an error
status. -/
theorem panic_not_surfaced_as_failure :
    ((wrapRecovery gate corsX).ServeHTTP ResponseWriter.fresh reqBoom ()).w.status = none ∧
    ((wrapRecovery okThenPanic corsX).ServeHTTP ResponseWriter.fresh reqOk ()).w.status
        = some 200 ∧
    ¬ (∀ (handler : Handler Unit) (w : ResponseWriter) (r : Request),
        (handler.ServeHTTP (withCors corsX w) r ()).panic ≠ none →
        signalsFailure ((wrapRecovery handler corsX).ServeHTTP w r ()).w = true) := by
  refine ⟨rfl, rfl, ?_⟩
  intro h
  have h1 := h gate ResponseWriter.fresh reqBoom (by decide)
  revert h1
  decide

/-- C7, amended: when the inner handler panics, `wrapRecovery` writes no status and no body:
the response has the status and body the inner handler had written before the panic, so it
signals a failure exactly when the inner handler had already written a status of 400 or
above; when the panic comes before any status was written, none is set. -/
theorem wrapRecovery_status_after_panic {σ : Type} (handler : Handler σ) (config : Config)
    (w : ResponseWriter) (r : Request) (s : σ) (v : PanicValue)
    (hp : (handler.ServeHTTP (withCors config w) r s).panic = some v) :
    ((wrapRecovery handler config).ServeHTTP w r s).w.status
        = (handler.ServeHTTP (withCors config w) r s).w.status ∧
    ((wrapRecovery handler config).ServeHTTP w r s).w.body
        = (handler.ServeHTTP (withCors config w) r s).w.body ∧
    (signalsFailure ((wrapRecovery handler config).ServeHTTP w r s).w = true ↔
      ∃ c, (handler.ServeHTTP (withCors config w) r s).w.status = some c ∧ 400 ≤ c) ∧
    ((handler.ServeHTTP (withCors config w) r s).w.status = none →
      ((wrapRecovery handler config).ServeHTTP w r s).w.status = none ∧
      signalsFailure ((wrapRecovery handler config).ServeHTTP w r s).w = false) := by
  have _ := hp
  have hw : ((wrapRecovery handler config).ServeHTTP w r s).w
      = (handler.ServeHTTP (withCors config w) r s).w := rfl
  refine ⟨rfl, rfl, ?_, ?_⟩
  · rw [hw]
    unfold signalsFailure
    cases hst : (handler.ServeHTTP (withCors config w) r s).w.status with
    | none => simp
    | some c => simp
  · intro hn
    rw [hw]
    refine ⟨hn, ?_⟩
    unfold signalsFailure
    rw [hn]

theorem wrapRecovery_status_after_panic_witness :
    (gate.ServeHTTP (withCors corsX ResponseWriter.fresh) reqBoom ()).panic
        = some (PanicValue.str "boom") ∧
    ((wrapRecovery gate corsX).ServeHTTP ResponseWriter.fresh reqBoom ()).w.status = none ∧
    signalsFailure ((wrapRecovery gate corsX).ServeHTTP ResponseWriter.fresh reqBoom ()).w
        = false :=
  ⟨rfl, (wrapRecovery_status_after_panic gate corsX ResponseWriter.fresh reqBoom ()
      (PanicValue.str "boom") rfl).2.2.2 rfl⟩

/-- C8: in every configuration, error logging enabled or not: when the inner handler panics
with a string `t`, `wrapRecovery` adds exactly one entry to the log, of level error, with
message "An error occurred handling a webdav request" and an attached error whose text is
`t`; when it panics with an error value `e`, exactly one such entry whose attached error is
`e`; when it does not panic, `wrapRecovery` adds no entry. -/
theorem wrapRecovery_log_entries {σ : Type} (handler : Handler σ) (config : Config)
    (w : ResponseWriter) (r : Request) (s : σ) :
    (∀ t : String, (handler.ServeHTTP (withCors config w) r s).panic = some (PanicValue.str t) →
      ∃ e : GoError, e.Error = t ∧
        ((wrapRecovery handler config).ServeHTTP w r s).logs
          = (handler.ServeHTTP (withCors config w) r s).logs ++
            [{ level := Level.Error, message := "An error occurred handling a webdav request",
               error := some e }]) ∧
    (∀ e : GoError, (handler.ServeHTTP (withCors config w) r s).panic = some (PanicValue.err e) →
      ((wrapRecovery handler config).ServeHTTP w r s).logs
        = (handler.ServeHTTP (withCors config w) r s).logs ++
          [{ level := Level.Error, message := "An error occurred handling a webdav request",
             error := some e }]) ∧
    ((handler.ServeHTTP (withCors config w) r s).panic = none →
      ((wrapRecovery handler config).ServeHTTP w r s).logs
        = (handler.ServeHTTP (withCors config w) r s).logs) := by
  have hl : ((wrapRecovery handler config).ServeHTTP w r s).logs
      = (handler.ServeHTTP (withCors config w) r s).logs
        ++ recovered (handler.ServeHTTP (withCors config w) r s).panic := rfl
  refine ⟨?_, ?_, ?_⟩
  · intro t ht
    refine ⟨errors.New t, rfl, ?_⟩
    rw [hl, ht]
    rfl
  · intro e he
    rw [hl, he]
    rfl
  · intro hn
    rw [hl, hn]
    simp [recovered]

theorem wrapRecovery_log_entries_witness :
    corsX.Log.Error = false ∧
    (∃ e : GoError, e.Error = "boom" ∧
      ((wrapRecovery gate corsX).ServeHTTP ResponseWriter.fresh reqBoom ()).logs
        = (gate.ServeHTTP (withCors corsX ResponseWriter.fresh) reqBoom ()).logs ++
          [{ level := Level.Error, message := "An error occurred handling a webdav request",
             error := some e }]) ∧
    ((wrapRecovery gate corsX).ServeHTTP ResponseWriter.fresh reqOk ()).logs
        = (gate.ServeHTTP (withCors corsX ResponseWriter.fresh) reqOk ()).logs :=
  ⟨rfl,
   (wrapRecovery_log_entries gate corsX ResponseWriter.fresh reqBoom ()).1 "boom" rfl,
   (wrapRecovery_log_entries gate corsX ResponseWriter.fresh reqOk ()).2.2 rfl⟩

/-! ## The `Logger` callback (lines 41-45) -/

/-- C5: the `Logger` callback emits a log entry if and only if `config.Log.Error` is set and
the reported error is non-nil; it then emits exactly one entry, of level error, whose message
is the text of that error; with logging disabled or a nil error it emits nothing. -/
theorem Logger_emits_iff (config : Config) (request : Request) (err : Option GoError) :
    (Logger config request err ≠ [] ↔ (config.Log.Error = true ∧ err ≠ none)) ∧
    (∀ e : GoError, config.Log.Error = true → err = some e →
      Logger config request err
        = [{ level := Level.Error, message := e.Error, error := none }]) ∧
    ((config.Log.Error = false ∨ err = none) → Logger config request err = []) := by
  unfold Logger
  cases hE : config.Log.Error <;> cases err <;> simp [log.Error]

theorem Logger_emits_iff_witness :
    Logger noOrigin reqOk (some (errors.New "locked"))
        = [{ level := Level.Error, message := "locked", error := none }] ∧
    Logger corsX reqOk (some (errors.New "locked")) = [] ∧
    Logger noOrigin reqOk none = [] :=
  ⟨(Logger_emits_iff noOrigin reqOk (some (errors.New "locked"))).2.1 _ rfl rfl,
   (Logger_emits_iff corsX reqOk (some (errors.New "locked"))).2.2 (Or.inl rfl),
   (Logger_emits_iff noOrigin reqOk none).2.2 (Or.inr rfl)⟩

/-! ## TLS policy (lines 53-72) -/

/-- C10: the TLS configuration of the server is non-nil exactly when `config.TLS` is; in that
case, for every list of suites returned by `tls.CipherSuites()`, its `CipherSuites` field is
the list of the IDs of the suites not flagged insecure, in the order of that list and once
per occurrence, and its `MinVersion` is TLS 1.2 (0x0303). -/
theorem server_tls_policy (config : Config) (suites : List CipherSuite) :
    ((server config suites).TLSConfig ≠ none ↔ config.TLS ≠ none) ∧
    (config.TLS ≠ none →
      (server config suites).TLSConfig
        = some { CipherSuites := (suites.filter (fun c => !c.Insecure)).map (fun c => c.ID),
                 MinVersion := 0x0303 }) := by
  have hs : secureCiphers suites
      = (suites.filter (fun c => !c.Insecure)).map (fun c => c.ID) := by
    unfold secureCiphers
    rw [secureCiphers_foldl]
    simp
  unfold server tlsConfig
  cases hT : config.TLS with
  | none => simp
  | some t => simp [hs, VersionTLS12]

theorem server_tls_policy_witness :
    noOrigin.TLS ≠ none ∧
    (server noOrigin sampleSuites).TLSConfig
      = some { CipherSuites :=
                 (sampleSuites.filter (fun c => !c.Insecure)).map (fun c => c.ID),
               MinVersion := 0x0303 } ∧
    (sampleSuites.filter (fun c => !c.Insecure)).map (fun c => c.ID) = [0x1301] :=
  ⟨by decide, (server_tls_policy noOrigin sampleSuites).2 (by decide), by decide⟩

end Dave
